import Mathlib

/-!
Shallow embedding of `src/src/lib.rs` of the `fast-chemical-synapse` plugin.

Modelling conventions:
- `f64` values are modelled as exact rationals `ℚ` (idealized arithmetic; every
  value is finite, mirroring the claims' "finite input values" side condition).
- `f64::exp` is a builtin of the floating-point unit, not code of this crate;
  it is modelled as an uninterpreted function parameter `fexp : ℚ → ℚ` threaded
  into every definition that calls it.
- `serde_json::from_slice::<Value>(bytes)` is external library code; its result
  is modelled as an `Option Value` argument (`none` = the byte payload does not
  parse as JSON, `some j` = it parses to the JSON value `j`).
- `str::from_utf8(bytes)` is likewise modelled by its result `Option String`
  (`none` = invalid UTF-8 byte sequence).
- A raw pointer argument of the C boundary is modelled as an `Option` of the
  pointee (`none` = null pointer); an opaque node handle is `Option PluginState`.
- In-place mutation through `&mut self` / the handle becomes explicit state
  passing: each boundary write returns the new `Option PluginState`.
-/

namespace RtSyn

/-- Model of `serde_json::Value`: a JSON document. Numbers carry a rational
(the idealization of the `f64` returned by `as_f64`). -/
inductive Value where
  | null : Value
  | bool (b : Bool) : Value
  | num (q : ℚ) : Value
  | str (s : String) : Value
  | arr (elems : List Value) : Value
  | obj (fields : List (String × Value)) : Value

/-- Model of `serde_json::Value::get(key)`: on an object, the value stored at
`key` (objects parsed by serde have distinct keys, so first match is the match);
on any non-object value, `None`. -/
def Value.get : Value → String → Option Value
  | Value.obj fields, key => fields.lookup key
  | _, _ => none

/-- Model of `serde_json::Value::as_f64`: `Some` exactly on numbers. -/
def Value.as_f64 : Value → Option ℚ
  | Value.num q => some q
  | _ => none

/-- Model of `rtsyn_plugin::PluginId` (newtype over `u64`). -/
structure PluginId where
  id : Nat
deriving DecidableEq

/-- Model of `rtsyn_plugin::PortId` (newtype over `String`). -/
structure PortId where
  id : String
deriving DecidableEq

/-- Model of `rtsyn_plugin::Port`. -/
structure Port where
  id : PortId
deriving DecidableEq

/-- Model of `rtsyn_plugin::PluginMeta`. -/
structure PluginMeta where
  name : String
  fixed_vars : List (String × Value)
  default_vars : List (String × Value)

/-- Modelled from the spec: `rtsyn_plugin::PluginContext` lives in the host
interface crate, not under `src/`; per §3 a TickContext carries the current
tick index, kept as "last seen tick" bookkeeping. -/
structure PluginContext where
  tick : Nat

/-- Modelled from the spec: `PluginContext::default()` (§3: informational
bookkeeping only; the initial tick value is never read by this node). -/
def PluginContext.default : PluginContext :=
  { tick := 0 }

/-- The plugin struct of `src/src/lib.rs` lines 11-23. -/
structure FastChemicalSynapsePlugin where
  id : PluginId
  meta : PluginMeta
  inputs : List Port
  outputs : List Port
  pre : ℚ
  post : ℚ
  output : ℚ
  g_fast : ℚ
  e_syn : ℚ
  s_fast : ℚ
  v_fast : ℚ

/-- `const INPUTS: &[&str]` (line 8). -/
def INPUTS : List String := ["pre", "post"]

/-- `const OUTPUTS: &[&str]` (line 9). -/
def OUTPUTS : List String := ["i_syn"]

/-- `FastChemicalSynapsePlugin::new` (lines 26-58). -/
def FastChemicalSynapsePlugin.new (id : Nat) : FastChemicalSynapsePlugin :=
  { id := { id := id }
    meta :=
      { name := "Fast Chemical Synapse"
        fixed_vars := []
        default_vars :=
          [("g_fast", Value.num 0.208), ("e_syn", Value.num (-1.92)),
           ("s_fast", Value.num 0.44), ("v_fast", Value.num (-1.66))] }
    inputs := [{ id := { id := "pre" } }, { id := { id := "post" } }]
    outputs := [{ id := { id := "i_syn" } }]
    pre := 0
    post := 0
    output := 0
    g_fast := 0.208
    e_syn := -1.92
    s_fast := 0.44
    v_fast := -1.66 }

/-- `<FastChemicalSynapsePlugin as Plugin>::process` (lines 78-82): recompute
the output from the current inputs and parameters. The source always returns
`Ok(())`; the context argument is ignored (`_ctx`), so it is omitted here.
`fexp` stands for `f64::exp`. -/
def FastChemicalSynapsePlugin.process (fexp : ℚ → ℚ)
    (p : FastChemicalSynapsePlugin) : FastChemicalSynapsePlugin :=
  let exp_val := fexp (p.s_fast * (p.v_fast - p.pre))
  { p with output := p.g_fast * (p.post - p.e_syn) / (1 + exp_val) }

/-- `struct PluginState` (lines 85-88): what a live handle points to. -/
structure PluginState where
  plugin : FastChemicalSynapsePlugin
  ctx : PluginContext

/-- `extern fn create` (lines 90-96): allocate fresh state; the returned
handle is `some` of this state (the allocation never fails to produce a
non-null pointer in the model). -/
def create (id : Nat) : PluginState :=
  { plugin := FastChemicalSynapsePlugin.new id
    ctx := PluginContext.default }

/-- `extern fn meta_json` (lines 104-112): the serialized metadata blob,
modelled at the JSON-value level; the handle is ignored. -/
def meta_json (_handle : Option PluginState) : Value :=
  Value.obj
    [("name", Value.str "Fast Chemical Synapse"),
     ("kind", Value.str "fast_chemical_synapse")]

/-- `extern fn inputs_json` (lines 114-116), at the JSON-value level. -/
def inputs_json (_handle : Option PluginState) : Value :=
  Value.arr (INPUTS.map Value.str)

/-- `extern fn outputs_json` (lines 118-120), at the JSON-value level. -/
def outputs_json (_handle : Option PluginState) : Value :=
  Value.arr (OUTPUTS.map Value.str)

/-- `extern fn set_config_json` (lines 122-144). `data` models the raw byte
buffer: `none` = null data pointer (early return), `some none` = bytes that do
not parse as JSON (the `if let Ok` guard fails), `some (some json)` = bytes
parsing to `json`. Each recognized key with a numeric value overwrites its
parameter; everything else is ignored. -/
def set_config_json (handle : Option PluginState) (data : Option (Option Value)) :
    Option PluginState :=
  match handle, data with
  | none, _ => none
  | some s, none => some s
  | some s, some parsed =>
    match parsed with
    | none => some s
    | some json =>
      let p0 := s.plugin
      let p1 := match (json.get "g_fast").bind Value.as_f64 with
        | some v => { p0 with g_fast := v }
        | none => p0
      let p2 := match (json.get "e_syn").bind Value.as_f64 with
        | some v => { p1 with e_syn := v }
        | none => p1
      let p3 := match (json.get "s_fast").bind Value.as_f64 with
        | some v => { p2 with s_fast := v }
        | none => p2
      let p4 := match (json.get "v_fast").bind Value.as_f64 with
        | some v => { p3 with v_fast := v }
        | none => p3
      some { s with plugin := p4 }

/-- `extern fn set_input` (lines 146-159). `port` models the raw name buffer:
`none` = null port pointer (early return), `some none` = invalid UTF-8 bytes
(the `Err` arm of `str::from_utf8`, falling into the catch-all), `some (some n)`
= bytes decoding to the string `n`. Only `"pre"` and `"post"` write a field. -/
def set_input (handle : Option PluginState) (port : Option (Option String))
    (value : ℚ) : Option PluginState :=
  match handle, port with
  | none, _ => none
  | some s, none => some s
  | some s, some name =>
    if name = some "pre" then
      some { s with plugin := { s.plugin with pre := value } }
    else if name = some "post" then
      some { s with plugin := { s.plugin with post := value } }
    else
      some s

/-- `extern fn process` (lines 161-169): record the tick into the context and
run the plugin update; the `Result` is discarded (`let _ = ...`). -/
def process (fexp : ℚ → ℚ) (handle : Option PluginState) (tick : Nat) :
    Option PluginState :=
  match handle with
  | none => none
  | some s =>
    some { s with
            ctx := { s.ctx with tick := tick }
            plugin := s.plugin.process fexp }

/-- `extern fn get_output` (lines 171-183). `port` as in `set_input`; the
stored output is returned only for the decoded name `"i_syn"`, and `0.0` in
every other case (null handle, null port pointer, invalid UTF-8, other name). -/
def get_output (handle : Option PluginState) (port : Option (Option String)) : ℚ :=
  match handle, port with
  | none, _ => 0
  | some _, none => 0
  | some s, some name =>
    if name = some "i_syn" then s.plugin.output else 0

end RtSyn

namespace RtSyn

/-- Characterization of `set_config_json` on a payload that parses to `json`:
each of the four recognized keys is applied independently when it is present
with a numeric value, and every other field of the state is untouched. -/
theorem set_config_json_parsed (s : PluginState) (json : Value) :
    set_config_json (some s) (some (some json))
      = some { s with plugin := { s.plugin with
          g_fast := ((json.get "g_fast").bind Value.as_f64).getD s.plugin.g_fast
          e_syn := ((json.get "e_syn").bind Value.as_f64).getD s.plugin.e_syn
          s_fast := ((json.get "s_fast").bind Value.as_f64).getD s.plugin.s_fast
          v_fast := ((json.get "v_fast").bind Value.as_f64).getD s.plugin.v_fast } } := by
  rcases h1 : (json.get "g_fast").bind Value.as_f64 with _ | v1 <;>
  rcases h2 : (json.get "e_syn").bind Value.as_f64 with _ | v2 <;>
  rcases h3 : (json.get "s_fast").bind Value.as_f64 with _ | v3 <;>
  rcases h4 : (json.get "v_fast").bind Value.as_f64 with _ | v4 <;>
  simp [set_config_json, h1, h2, h3, h4]

/-- C1: for every node state (all values are finite in the exact-rational
model) and every tick index, advance followed by read_output on "i_syn"
returns g_fast * (post - e_syn) / (1 + exp (s_fast * (v_fast - pre))),
computed from the input and parameter values current at the advance call. -/
theorem c1_advance_then_read_formula (fexp : ℚ → ℚ) (s : PluginState) (tick : Nat) :
    get_output (process fexp (some s) tick) (some (some "i_syn"))
      = s.plugin.g_fast * (s.plugin.post - s.plugin.e_syn)
          / (1 + fexp (s.plugin.s_fast * (s.plugin.v_fast - s.plugin.pre))) := by
  simp [get_output, process, FastChemicalSynapsePlugin.process]

/-- C2: for every identity value, construction succeeds (it is a total
function) and yields the documented parameter defaults, zero inputs, zero
output, exactly the input ports "pre" and "post", and exactly the output
port "i_syn"; `create` wraps exactly this state behind the handle. -/
theorem c2_construction_defaults (id : Nat) :
    (FastChemicalSynapsePlugin.new id).g_fast = 0.208
  ∧ (FastChemicalSynapsePlugin.new id).e_syn = -1.92
  ∧ (FastChemicalSynapsePlugin.new id).s_fast = 0.44
  ∧ (FastChemicalSynapsePlugin.new id).v_fast = -1.66
  ∧ (FastChemicalSynapsePlugin.new id).pre = 0
  ∧ (FastChemicalSynapsePlugin.new id).post = 0
  ∧ (FastChemicalSynapsePlugin.new id).output = 0
  ∧ (FastChemicalSynapsePlugin.new id).inputs
      = [{ id := { id := "pre" } }, { id := { id := "post" } }]
  ∧ (FastChemicalSynapsePlugin.new id).outputs = [{ id := { id := "i_syn" } }]
  ∧ create id
      = { plugin := FastChemicalSynapsePlugin.new id, ctx := PluginContext.default } :=
  ⟨rfl, rfl, rfl, rfl, rfl, rfl, rfl, rfl, rfl, rfl⟩

/-- C3: a byte payload that does not parse as JSON (modelled by the parse
result `none`) leaves the whole state — in particular all four parameter
values — unchanged: the update is discarded in its entirety. -/
theorem c3_unparseable_payload_discarded (s : PluginState) :
    set_config_json (some s) (some none) = some s := rfl

/-- C4: a payload containing only the key "g_fast" mapped to 1.0 sets g_fast
to 1.0 and leaves e_syn, s_fast and v_fast at their prior values; in general
(second conjunct) each recognized key present with a numeric value overwrites
its parameter, absent keys leave the corresponding parameter unchanged, and
unrecognized keys change nothing. -/
theorem c4_single_key_update_and_frame (s : PluginState) (j : Value) :
    set_config_json (some s) (some (some (Value.obj [("g_fast", Value.num 1)])))
        = some { s with plugin := { s.plugin with g_fast := 1 } }
  ∧ set_config_json (some s) (some (some j))
        = some { s with plugin := { s.plugin with
            g_fast := ((j.get "g_fast").bind Value.as_f64).getD s.plugin.g_fast
            e_syn := ((j.get "e_syn").bind Value.as_f64).getD s.plugin.e_syn
            s_fast := ((j.get "s_fast").bind Value.as_f64).getD s.plugin.s_fast
            v_fast := ((j.get "v_fast").bind Value.as_f64).getD s.plugin.v_fast } } :=
  ⟨rfl, set_config_json_parsed s j⟩

/-- C5: read_output returns 0.0 for every port argument other than the
successfully decoded name "i_syn" — null port pointer, invalid UTF-8 bytes
and any other decoded name alike — and returns the stored output for
"i_syn"; this holds for every state, hence before or after any number of
advance calls. -/
theorem c5_read_output_dispatch (s : PluginState) (port : Option (Option String))
    (h : port ≠ some (some "i_syn")) :
    get_output (some s) port = 0
  ∧ get_output (some s) (some (some "i_syn")) = s.plugin.output := by
  constructor
  · rcases port with _ | name
    · rfl
    · have hn : name ≠ some "i_syn" := fun hx => h (by rw [hx])
      simp [get_output, hn]
  · simp [get_output]

/-- Witness for C5 at the freshly created state and the concrete name "isyn". -/
theorem c5_read_output_dispatch_witness :
    get_output (some (create 0)) (some (some "isyn")) = 0
  ∧ get_output (some (create 0)) (some (some "i_syn")) = (create 0).plugin.output :=
  c5_read_output_dispatch (create 0) (some (some "isyn")) (by decide)

/-- C6: write_input with a port argument that is neither the decoded name
"pre" nor "post" — null port pointer, invalid UTF-8 bytes and unrecognized
names alike — returns the state completely unchanged: inputs, parameters and
output are all untouched. -/
theorem c6_write_input_unknown_noop (s : PluginState) (port : Option (Option String))
    (v : ℚ) (h1 : port ≠ some (some "pre")) (h2 : port ≠ some (some "post")) :
    set_input (some s) port v = some s := by
  rcases port with _ | name
  · rfl
  · have hp : name ≠ some "pre" := fun hx => h1 (by rw [hx])
    have hq : name ≠ some "post" := fun hx => h2 (by rw [hx])
    simp [set_input, hp, hq]

/-- Witness for C6 at the freshly created state and the concrete name "prepost". -/
theorem c6_write_input_unknown_noop_witness :
    set_input (some (create 0)) (some (some "prepost")) 7 = some (create 0) :=
  c6_write_input_unknown_noop (create 0) (some (some "prepost")) 7 (by decide) (by decide)

/-- C7: the stored output is only ever written by advance: set_input with any
port argument and value, and set_config_json with any data argument, leave
the output value (as observed through read_output on "i_syn") unchanged. -/
theorem c7_output_only_written_by_advance (s : PluginState)
    (port : Option (Option String)) (v : ℚ) (data : Option (Option Value)) :
    get_output (set_input (some s) port v) (some (some "i_syn")) = s.plugin.output
  ∧ get_output (set_config_json (some s) data) (some (some "i_syn")) = s.plugin.output := by
  constructor
  · rcases port with _ | name
    · rfl
    · by_cases hp : name = some "pre"
      · simp [set_input, hp, get_output]
      · by_cases hq : name = some "post"
        · simp [set_input, hp, hq, get_output]
        · simp [set_input, hp, hq, get_output]
  · rcases data with _ | parsed
    · rfl
    · rcases parsed with _ | json
      · rfl
      · rw [set_config_json_parsed]
        simp [get_output]

/-- C8: the output written by advance does not depend on the tick index, and
advancing twice in succession with any tick indices and no intervening
changes produces the same output as advancing once: the output is recomputed
fresh from current inputs and parameters on every call, never cached. -/
theorem c8_advance_recomputes_tick_independent (fexp : ℚ → ℚ) (s : PluginState)
    (t1 t2 t3 : Nat) :
    get_output (process fexp (process fexp (some s) t1) t2) (some (some "i_syn"))
      = get_output (process fexp (some s) t3) (some (some "i_syn")) := by
  simp [get_output, process, FastChemicalSynapsePlugin.process]

/-- C9: every boundary operation other than create and destroy tolerates a
null handle: set_config_json, set_input and process on a null handle touch no
state (there is none to touch, and none is produced), and get_output on a
null handle returns the default 0.0. -/
theorem c9_null_handle_tolerated (fexp : ℚ → ℚ) (data : Option (Option Value))
    (port : Option (Option String)) (v : ℚ) (tick : Nat)
    (port2 : Option (Option String)) :
    set_config_json none data = none
  ∧ set_input none port v = none
  ∧ process fexp none tick = none
  ∧ get_output none port2 = 0 :=
  ⟨rfl, rfl, rfl, rfl⟩

/-- C10: within a payload that does parse as JSON, the four recognized keys
are applied independently: a recognized key with a non-numeric value (here a
string for "g_fast" and null for "s_fast") is skipped without error while a
recognized key with a numeric value in the same payload ("e_syn" mapped to 5)
is still applied — no-partial-application holds only for unparseable
payloads. -/
theorem c10_independent_keys_within_parsed_payload (s : PluginState) :
    set_config_json (some s)
        (some (some (Value.obj
          [("g_fast", Value.str "not a number"), ("s_fast", Value.null),
           ("e_syn", Value.num 5)])))
      = some { s with plugin := { s.plugin with e_syn := 5 } } := rfl

end RtSyn
